import Mathlib

/-!
Verified model of the SmartSwapML repository.

The Python sources are embedded shallowly:
* float arithmetic is modelled by exact rational arithmetic (`ℚ`);
* `datetime` values are modelled as integer timestamps (the code only ever
  shifts them by fixed deltas and compares nothing about them);
* the hidden state of the Python `random` module is made explicit as a stream
  of natural-number draws passed to each request handler;
* JSON serialisation round-trips are modelled as the identity, which is
  faithful because every value the code caches is the `json.dumps` of the
  value it later decodes;
* fallible handlers return explicit sum types instead of raising.
-/

/-! ## Python numeric helpers -/

/-- Floor of a rational number, computed on numerator and denominator
(`Int.ediv` is floor division for the positive denominator). -/
def ratFloorZ (q : ℚ) : Int := Int.ediv q.num q.den

/-- Python `int()` conversion applied to a float: truncation toward zero. -/
def pyTrunc (q : ℚ) : Int := if 0 ≤ q then ratFloorZ q else -(ratFloorZ (-q))

/-- Python `round()` to an integer: round half to even (round-half-to-even),
idealised to exact rationals. -/
def pyRoundHalfEven (q : ℚ) : Int :=
  let f := ratFloorZ q
  let frac := q - (f : ℚ)
  if frac < 1/2 then f
  else if 1/2 < frac then f + 1
  else if f % 2 = 0 then f else f + 1

/-- Python `round(x, n)` for floats, idealised to exact rationals. -/
def pyRound (n : Nat) (q : ℚ) : ℚ := (pyRoundHalfEven (q * 10 ^ n) : ℚ) / 10 ^ n

/-- One draw of the Python call `random.randint(lo, hi)`: consumes the head of the
explicit stream of raw draws and maps it into `[lo, hi]`. -/
def randint (lo hi : Int) (rng : List Nat) : Int × List Nat :=
  (lo + (rng.headD 0 : Int) % (hi - lo + 1), rng.tail)

/-! ## Legacy entry point: `src/main.py` -/

namespace Main

/-- `src/main.py` `Battery` pydantic model (all fields primitive). -/
structure Battery where
  id : String
  health : ℚ
  soc : ℚ
  cycles : Int
  temp : ℚ
  location : String
  status : String
  timestamp : Int
deriving DecidableEq, Repr

/-- `src/main.py` `Station` pydantic model. -/
structure Station where
  id : String
  name : String
  lat : ℚ
  lng : ℚ
  batteries : Int
  utilization : ℚ
  status : String
deriving DecidableEq, Repr

/-- The four battery documents inserted by `initialize_sample_data`
(`src/main.py` lines 106-111); `now` is the `datetime.now()` timestamp. -/
def sample_batteries (now : Int) : List Battery :=
  [⟨"BAT001", 95, 87, 245, 32, "Mumbai", "active", now⟩,
   ⟨"BAT002", 87, 72, 567, 28, "Pune", "active", now⟩,
   ⟨"BAT003", 92, 91, 123, 30, "Bangalore", "charging", now⟩,
   ⟨"BAT004", 78, 45, 892, 35, "Chennai", "maintenance", now⟩]

/-- The three station documents inserted by `initialize_sample_data`
(`src/main.py` lines 114-118). -/
def sample_stations : List Station :=
  [⟨"ST001", "Mumbai Central", 19.0760, 72.8777, 24, 85, "active"⟩,
   ⟨"ST002", "Pune Highway", 18.5204, 73.8567, 18, 72, "active"⟩,
   ⟨"ST003", "Bangalore Tech Park", 12.9716, 77.5946, 32, 91, "active"⟩]

/-- The MongoDB document store: the two collections the legacy entry point
touches. -/
structure DB where
  batteries : List Battery
  stations : List Station
deriving DecidableEq, Repr

/-- `initialize_sample_data` (`src/main.py` lines 102-130): clears both
collections (`delete_many`) and inserts the sample documents
(`insert_many`). -/
def init_sample_data (now : Int) (db : DB) : DB :=
  { db with batteries := sample_batteries now, stations := sample_stations }

/-- A value held in the Redis cache; serialisation is modelled as the
identity (the code only stores `json.dumps` of these payloads, which is
always a non-empty string, so a present entry is always truthy). -/
inductive CacheVal where
  | batteriesVal (bs : List Battery)
  | batteryVal (b : Battery)
  | stationsVal (ss : List Station)
deriving DecidableEq, Repr

/-- A `redis.setex(key, ttl, value)` call issued by a handler. -/
structure CacheWrite where
  key : String
  ttl : Nat
  value : CacheVal
deriving DecidableEq, Repr

/-- The Redis cache as used by the legacy entry point: the key space is
exactly `batteries_cache`, `battery_<id>` and `stations_cache`. -/
structure Cache where
  batteries_cache : Option (List Battery)
  battery_cache : String → Option Battery
  stations_cache : Option (List Station)

/-- The cache with no entries. -/
def Cache.empty : Cache := ⟨none, fun _ => none, none⟩

/-- Result of the `GET /api/batteries` handler: the response body, the
`setex` calls it issued, and whether the document store was queried. -/
structure GetBatteriesResult where
  response : List Battery
  writes : List CacheWrite
  dbQueried : Bool
deriving DecidableEq, Repr

/-- `get_batteries` (`src/main.py` lines 191-213), happy path: cache hit
returns the decoded cached list; cache miss reads all documents from
`database.batteries.find({})`, caches them for 30 seconds and returns
them.  The exception boundary (`except Exception: return []`) is modelled
in the handler table below. -/
def get_batteries (cache : Cache) (db : DB) : GetBatteriesResult :=
  match cache.batteries_cache with
  | some bs => { response := bs, writes := [], dbQueried := false }
  | none =>
      let batteries := db.batteries
      { response := batteries,
        writes := [⟨"batteries_cache", 30, .batteriesVal batteries⟩],
        dbQueried := true }

/-- Response of a single-battery lookup. -/
inductive BatteryResponse where
  | ok (b : Battery)
  | httpError (code : Nat)
deriving DecidableEq, Repr

/-- Result of the `GET /api/batteries/\x7bbattery_id\x7d` handler. -/
structure GetBatteryResult where
  response : BatteryResponse
  writes : List CacheWrite
  dbQueried : Bool
deriving DecidableEq, Repr

/-- `get_battery` (`src/main.py` lines 215-240), happy path: cache hit on
`battery_<id>`; otherwise `find_one({"id": battery_id})`, 404 when
missing, else cache for 30 seconds and return. -/
def get_battery (battery_id : String) (cache : Cache) (db : DB) : GetBatteryResult :=
  match cache.battery_cache battery_id with
  | some b => { response := .ok b, writes := [], dbQueried := false }
  | none =>
      match db.batteries.find? (fun d => d.id == battery_id) with
      | none => { response := .httpError 404, writes := [], dbQueried := true }
      | some b =>
          { response := .ok b,
            writes := [⟨"battery_" ++ battery_id, 30, .batteryVal b⟩],
            dbQueried := true }

/-- Result of the `GET /api/stations` handler. -/
structure GetStationsResult where
  response : List Station
  writes : List CacheWrite
  dbQueried : Bool
deriving DecidableEq, Repr

/-- `get_stations` (`src/main.py` lines 242-260), happy path: cache hit on
`stations_cache`; otherwise read all station documents, cache them for 60
seconds and return them. -/
def get_stations (cache : Cache) (db : DB) : GetStationsResult :=
  match cache.stations_cache with
  | some ss => { response := ss, writes := [], dbQueried := false }
  | none =>
      let stations := db.stations
      { response := stations,
        writes := [⟨"stations_cache", 60, .stationsVal stations⟩],
        dbQueried := true }

/-- `ACCESS_TOKEN_EXPIRE_MINUTES` (`src/main.py` line 20). -/
def ACCESS_TOKEN_EXPIRE_MINUTES : Int := 30

/-- JWT payload produced by `create_access_token` in the legacy entry
point: the claims dict `{"sub": ..., "role": ...}` plus `exp`. -/
structure TokenPayload where
  sub : String
  role : String
  exp : Int
deriving DecidableEq, Repr

/-- `create_access_token` (`src/main.py` lines 152-160) with an explicit
expiry delta in minutes; `now` is `datetime.utcnow()` in seconds. -/
def create_access_token (sub role : String) (now expireMinutes : Int) : TokenPayload :=
  ⟨sub, role, now + expireMinutes * 60⟩

/-- The login request body. -/
structure LoginRequest where
  username : String
  password : String
deriving DecidableEq, Repr

/-- Outcome of the legacy login handler. -/
inductive LoginResult where
  | token (payload : TokenPayload)
  | httpError (code : Nat)
deriving DecidableEq, Repr

/-- Whether a login outcome carries an access token. -/
def LoginResult.isToken : LoginResult → Bool
  | .token _ => true
  | .httpError _ => false

/-- `login` (`src/main.py` lines 178-189): the hard-coded demo credential
check; on success a 30-minute admin token, otherwise HTTP 401. -/
def login (now : Int) (req : LoginRequest) : LoginResult :=
  if req.username = "demo" ∧ req.password = "demo123" then
    .token (create_access_token req.username "admin" now ACCESS_TOKEN_EXPIRE_MINUTES)
  else
    .httpError 401

/-- A bearer token as seen after `jwt.decode`: either the decode raised
(`PyJWTError` / `JWTError`: malformed token, bad signature, or expired
`exp` claim) or it produced a payload with optional `sub` and `type`
claims. -/
inductive DecodedToken where
  | decodeError
  | payload (sub : Option String) (typ : Option String)
deriving DecidableEq, Repr

/-- Outcome of a token-verification dependency. -/
inductive VerifyResult where
  | ok (sub : Option String) (typ : Option String)
  | httpError (code : Nat)
deriving DecidableEq, Repr

/-- `verify_token` (`src/main.py` lines 162-171): decode failures and a
missing `sub` claim yield HTTP 401; any payload with a `sub` claim is
accepted (the legacy verifier checks no `type` claim). -/
def verify_token : DecodedToken → VerifyResult
  | .decodeError => .httpError 401
  | .payload sub typ =>
      match sub with
      | none => .httpError 401
      | some _ => .ok sub typ

/-- Outcome of running a handler body behind an auth dependency. -/
inductive AuthedOutcome (α : Type) where
  | ok (a : α)
  | httpError (code : Nat)
deriving DecidableEq, Repr

/-- FastAPI dependency semantics: when the verification dependency raises,
the handler body never runs (second component: whether the data layer was
touched). -/
def with_auth {α : Type} (v : VerifyResult) (body : Unit → α × Bool) :
    AuthedOutcome α × Bool :=
  match v with
  | .httpError c => (.httpError c, false)
  | .ok _ _ => let r := body (); (.ok r.1, r.2)

/-- Response of the route-optimization endpoint. -/
structure RouteData where
  id : String
  from_location : String
  to_location : String
  distance : Int
  elevation_gain : Int
  predicted_range : ℚ
  confidence : Int
  weather_impact : Int
deriving DecidableEq, Repr

/-- `get_route_optimization` (`src/main.py` lines 262-296): five
`random.randint` draws from the process RNG stream feed the arithmetic. -/
def get_route_optimization (from_loc to_loc : String) (rng : List Nat) : RouteData :=
  let d := randint 50 500 rng
  let e := randint 100 1000 d.2
  let p := randint (-20) 10 e.2
  let c := randint 85 98 p.2
  let w := randint (-15) 5 c.2
  { id := "ROUTE_" ++ from_loc ++ "_" ++ to_loc
    from_location := from_loc
    to_location := to_loc
    distance := d.1
    elevation_gain := e.1
    predicted_range := (d.1 : ℚ) * 0.95 + (p.1 : ℚ)
    confidence := c.1
    weather_impact := w.1 }

end Main

/-! ## Backend auth: `src/backend/services/auth_service.py` -/

namespace AuthService

/-- `UserInDB` as stored in the `users` collection (fields the auth flow
reads). -/
structure UserInDB where
  id : String
  username : String
  email : String
  hashed_password : String
  role : String
  is_active : Bool
deriving DecidableEq, Repr

/-- `get_user_by_username` (`auth_service.py` lines 74-84): first stored
user with the given username. -/
def get_user_by_username (users : List UserInDB) (username : String) : Option UserInDB :=
  users.find? (fun u => u.username == username)

/-- `authenticate_user` (`auth_service.py` lines 86-93); `verify_password`
abstracts the bcrypt check `pwd_context.verify`. -/
def authenticate_user (verify_password : String → String → Bool)
    (users : List UserInDB) (username password : String) : Option UserInDB :=
  match get_user_by_username users username with
  | none => none
  | some user => if verify_password password user.hashed_password then some user else none

/-- A backend bearer token after `jwt.decode`: decode failure (malformed,
bad signature, or expired) or a payload with optional `sub`, `user_id`,
`role` and `type` claims. -/
inductive DecodedToken where
  | decodeError
  | payload (sub user_id role typ : Option String)
deriving DecidableEq, Repr

/-- `TokenData` handed to route handlers on successful verification. -/
structure TokenData where
  username : String
  user_id : Option String
  role : Option String
deriving DecidableEq, Repr

/-- Outcome of the backend token-verification dependency. -/
inductive VerifyOutcome where
  | ok (t : TokenData)
  | httpError (code : Nat)
deriving DecidableEq, Repr

/-- `verify_token` (`auth_service.py` lines 49-72): decode failures yield
HTTP 401; a payload is rejected with 401 when `sub` is missing or the
`type` claim is not `"access"`. -/
def verify_token : DecodedToken → VerifyOutcome
  | .decodeError => .httpError 401
  | .payload sub user_id role typ =>
      match sub with
      | none => .httpError 401
      | some username =>
          if typ ≠ some "access" then .httpError 401
          else .ok ⟨username, user_id, role⟩

end AuthService

namespace RoutersAuth

/-- The access/refresh token pair issued by the backend login, identified
by the claims both tokens share. -/
structure Token where
  sub : String
  user_id : String
  role : String
deriving DecidableEq, Repr

/-- Outcome of the backend login handler. -/
inductive LoginOutcome where
  | token (t : Token)
  | httpError (code : Nat)
deriving DecidableEq, Repr

/-- Whether a backend login outcome carries tokens. -/
def LoginOutcome.isToken : LoginOutcome → Bool
  | .token _ => true
  | .httpError _ => false

/-- `login` (`src/backend/routers/auth.py` lines 55-109), happy path:
`authenticate_user` failure yields HTTP 401, success issues the token
pair for the stored user. -/
def login (verify_password : String → String → Bool)
    (users : List AuthService.UserInDB) (username password : String) : LoginOutcome :=
  match AuthService.authenticate_user verify_password users username password with
  | none => .httpError 401
  | some user => .token ⟨user.username, user.id, user.role⟩

end RoutersAuth

/-! ## ML service: `src/backend/services/ml_service.py` -/

namespace MLService

/-- One entry of the `battery_data` list given to
`analyze_circular_economy`: a dict read by `.get` with defaults 0 for `soh` and
50 for `capacity_kwh`. -/
structure BatteryRec where
  soh : Option ℚ
  capacity_kwh : Option ℚ
deriving DecidableEq, Repr

/-- The numeric content of the `analyze_circular_economy` result dict. -/
structure CircularEconomyResult where
  total_batteries : Nat
  healthy : Nat
  degraded : Nat
  end_of_life : Nat
  lithium : ℚ
  cobalt : ℚ
  nickel : ℚ
  aluminum : ℚ
  copper : ℚ
  recovery_lithium : ℚ
  recovery_cobalt : ℚ
  recovery_nickel : ℚ
  recovery_aluminum : ℚ
  recovery_copper : ℚ
  second_life_savings_tons : ℚ
  recycling_savings_tons : ℚ
  total_savings_tons : ℚ
deriving DecidableEq, Repr

/-- `analyze_circular_economy` output: the empty-input error dict or the
analysis result. -/
inductive CircularEconomyOutput where
  | emptyError
  | result (r : CircularEconomyResult)
deriving DecidableEq, Repr

/-- `analyze_circular_economy` (`ml_service.py` lines 236-301).  The `rng`
parameter is the process RNG stream under which the request runs; the
source samples nothing, so it is unused. -/
def analyze_circular_economy (battery_data : List BatteryRec) (rng : List Nat) :
    CircularEconomyOutput :=
  let total_batteries := battery_data.length
  if total_batteries = 0 then .emptyError
  else
    let healthy := battery_data.countP (fun b => 80 ≤ b.soh.getD 0)
    let degraded := battery_data.countP (fun b => 50 ≤ b.soh.getD 0 ∧ b.soh.getD 0 < 80)
    let end_of_life := battery_data.countP (fun b => b.soh.getD 0 < 50)
    let avg_capacity := (battery_data.map (fun b => b.capacity_kwh.getD 50)).sum / total_batteries
    let total_capacity := (total_batteries : ℚ) * avg_capacity
    let lithium := total_capacity * 0.02
    let cobalt := total_capacity * 0.15
    let nickel := total_capacity * 0.35
    let aluminum := total_capacity * 0.25
    let copper := total_capacity * 0.15
    let carbon_per_battery : ℚ := 2.5
    let carbon_saved_second_life := (degraded : ℚ) * carbon_per_battery * 0.3
    let carbon_saved_recycling := (end_of_life : ℚ) * carbon_per_battery * 0.2
    .result
      { total_batteries, healthy, degraded, end_of_life
        lithium, cobalt, nickel, aluminum, copper
        recovery_lithium := pyRound 2 (lithium * 0.78)
        recovery_cobalt := pyRound 2 (cobalt * 0.85)
        recovery_nickel := pyRound 2 (nickel * 0.92)
        recovery_aluminum := pyRound 2 (aluminum * 0.95)
        recovery_copper := pyRound 2 (copper * 0.98)
        second_life_savings_tons := pyRound 2 carbon_saved_second_life
        recycling_savings_tons := pyRound 2 carbon_saved_recycling
        total_savings_tons := pyRound 2 (carbon_saved_second_life + carbon_saved_recycling) }

/-- The `region_data` dict given to `optimize_station_placement`, read
with `.get` defaults 100 / 1000 / 0 / 100. -/
structure RegionData where
  population_density : Option ℚ
  traffic_volume : Option ℚ
  existing_stations : Option Int
  area_km2 : Option ℚ
deriving DecidableEq, Repr

/-- The numeric content of the `optimize_station_placement` result dict. -/
structure PlacementResult where
  current_stations : Int
  optimal_stations : Int
  recommended_new : Int
  demand_score : ℚ
  coverage_improvement_percent : ℚ
  investment_required : Int
  annual_revenue_projection : Int
  roi_payback_years : ℚ
  daily_swaps_per_station : ℚ
deriving DecidableEq, Repr

/-- `optimize_station_placement` (`ml_service.py` lines 303-349).  As with
the circular-economy analysis, the `rng` stream is unused by the
source. -/
def optimize_station_placement (region_data : RegionData) (rng : List Nat) :
    PlacementResult :=
  let population_density := region_data.population_density.getD 100
  let traffic_volume := region_data.traffic_volume.getD 1000
  let existing_stations := region_data.existing_stations.getD 0
  let area_km2 := region_data.area_km2.getD 100
  let base_demand := population_density * 0.01 + traffic_volume * 0.0001
  let optimal_stations := max 1 (pyTrunc (area_km2 * base_demand / 1000))
  let recommended_new_stations := max 0 (optimal_stations - existing_stations)
  let coverage_improvement : Int := min 100 (recommended_new_stations * 15)
  let investment_per_station : Int := 250000
  let daily_swaps_per_station := min 50 (base_demand * 10)
  let annual_revenue_per_station := daily_swaps_per_station * 365 * 5
  let roi_years :=
    if 0 < annual_revenue_per_station then (investment_per_station : ℚ) / annual_revenue_per_station
    else 10
  { current_stations := existing_stations
    optimal_stations
    recommended_new := recommended_new_stations
    demand_score := pyRound 2 base_demand
    coverage_improvement_percent := pyRound 1 (coverage_improvement : ℚ)
    investment_required := recommended_new_stations * investment_per_station
    annual_revenue_projection := pyRoundHalfEven ((recommended_new_stations : ℚ) * annual_revenue_per_station)
    roi_payback_years := pyRound 1 roi_years
    daily_swaps_per_station }

end MLService

/-! ## Battery router: `src/backend/routers/batteries.py` -/

namespace RoutersBatteries

/-- `BatteryStatus` enum (`src/backend/models/batteries.py`). -/
inductive BatteryStatus where
  | healthy | degraded | maintenance | retired
deriving DecidableEq, Repr

/-- `SwapRecommendation` enum (`src/backend/models/batteries.py`). -/
inductive SwapRecommendation where
  | recommended | caution | not_recommended
deriving DecidableEq, Repr

/-- `BatteryHealth` model (`src/backend/models/batteries.py`). -/
structure BatteryHealth where
  soc : ℚ
  soh : ℚ
  voltage : ℚ
  current : ℚ
  temperature : ℚ
  cycle_count : Int
  capacity_remaining : ℚ
  internal_resistance : ℚ
deriving DecidableEq, Repr

/-- `BatteryMetrics` model (`src/backend/models/batteries.py`). -/
structure BatteryMetrics where
  health : BatteryHealth
  status : BatteryStatus
  swap_recommendation : SwapRecommendation
  confidence_score : ℚ
  predicted_range_km : ℚ
  estimated_life_remaining_days : Int
deriving DecidableEq, Repr

/-- `Battery` model (`src/backend/models/batteries.py` lines 35-48);
datetimes as integer timestamps in days. -/
structure Battery where
  battery_id : String
  station_id : String
  manufacturer : String
  model : String
  chemistry : String
  capacity_kwh : ℚ
  manufacturing_date : Int
  first_use_date : Int
  current_location : String
  metrics : BatteryMetrics
  maintenance_history : List String
  created_at : Int
  updated_at : Int
deriving DecidableEq, Repr

/-- The Mongo query filter built by the battery-list handler
(`batteries.py` lines 33-38). -/
structure QueryFilter where
  station_id : Option String
  status : Option BatteryStatus
deriving DecidableEq, Repr

/-- `batteries.py` lines 33-38: `station_id` is added to the filter only
when truthy (so the empty string is not added), `status` whenever
present (enum values are non-empty strings, hence always truthy). -/
def build_query_filter (station_id : Option String) (status : Option BatteryStatus) :
    QueryFilter :=
  { station_id :=
      match station_id with
      | some s => if s = "" then none else some s
      | none => none
    status }

/-- The hard-coded id list of `get_mock_batteries` (`batteries.py` line 305). -/
def battery_ids : List String := ["BAT001", "BAT002", "BAT003", "BAT004", "BAT005"]

/-- The battery the mock generator builds at position `i` of the sliced id
list (`batteries.py` lines 307-344); `now` is `datetime.utcnow()` in days. -/
def mock_battery (now : Int) (i : Nat) (battery_id : String) : Battery :=
  let health : BatteryHealth :=
    { soc := 85.0 + (i * 2 : ℚ)
      soh := 90.0 - (i * 3 : ℚ)
      voltage := 3.7 + (i : ℚ) * 0.1
      current := 2.5
      temperature := 25.0 + (i * 2 : ℚ)
      cycle_count := 500 + (i : Int) * 100
      capacity_remaining := 48.0 - (i * 2 : ℚ)
      internal_resistance := 0.1 + (i : ℚ) * 0.01 }
  let metrics : BatteryMetrics :=
    { health
      status := if 80 < health.soh then .healthy else .degraded
      swap_recommendation := if 80 < health.soh then .recommended else .caution
      confidence_score := 95.0 - (i * 5 : ℚ)
      predicted_range_km := 200.0 - (i * 10 : ℚ)
      estimated_life_remaining_days := 2000 - (i : Int) * 200 }
  { battery_id
    station_id := "STN00" ++ toString ((i % 3) + 1)
    manufacturer := "CATL"
    model := "LFP-50-" ++ toString i
    chemistry := "LiFePO4"
    capacity_kwh := 50.0
    manufacturing_date := now - (365 + (i : Int) * 30)
    first_use_date := now - (300 + (i : Int) * 20)
    current_location := "Station " ++ toString ((i % 3) + 1)
    metrics
    maintenance_history := []
    created_at := now - 300
    updated_at := now }

/-- `get_mock_batteries` (`batteries.py` lines 300-346): slices the id
list with `battery_ids[skip:skip+limit]` and builds one mock battery per
position; the `query_filter` argument is accepted but never used. -/
def get_mock_batteries (query_filter : QueryFilter) (skip limit : Nat) (now : Int) :
    List Battery :=
  (((battery_ids.drop skip).take limit).enum).map (fun p => mock_battery now p.1 p.2)

/-- The `GET /api/batteries/` handler (`batteries.py` lines 21-48), happy
path: builds the query filter from the request parameters and returns the
mock batteries. -/
def get_batteries (skip limit : Nat) (station_id : Option String)
    (status : Option BatteryStatus) (now : Int) : List Battery :=
  get_mock_batteries (build_query_filter station_id status) skip limit now

end RoutersBatteries

/-! ## Station router: `src/backend/routers/stations.py` -/

namespace RoutersStations

/-- `StationType` enum (`src/backend/models/stations.py`). -/
inductive StationType where
  | urban | highway | rural | commercial
deriving DecidableEq, Repr

/-- `Location` model (`src/backend/models/stations.py`), the fields the
station search reads or returns. -/
structure Location where
  lat : ℚ
  lon : ℚ
  address : String
  city : String
  state : String
  country : String
deriving DecidableEq, Repr

/-- `StationCapacity` model (`src/backend/models/stations.py`). -/
structure StationCapacity where
  total_slots : Int
  available_slots : Int
  charging_slots : Int
  maintenance_slots : Int
  battery_inventory : Int
  healthy_batteries : Int
  degraded_batteries : Int
deriving DecidableEq, Repr

/-- `Station` model restricted to the fields the search handler reads
(`status`, `metrics`, `amenities`, `operating_hours`, `contact_info` and
the timestamps are never consulted by `search_nearby_stations`; the full
field shape of the source model is recorded in the entity tables
below). -/
structure Station where
  station_id : String
  name : String
  location : Location
  station_type : StationType
  capacity : StationCapacity
deriving DecidableEq, Repr

/-- `StationSearch` request model (`src/backend/models/stations.py`
lines 74-79). -/
structure StationSearch where
  lat : ℚ
  lon : ℚ
  radius_km : ℚ
  station_type : Option StationType
  min_available_slots : Int
deriving DecidableEq, Repr

/-- `StationSearchResult` response model (`src/backend/models/stations.py`
lines 81-86). -/
structure StationSearchResult where
  station : Station
  distance_km : ℚ
  estimated_travel_time_minutes : ℚ
  availability_score : ℚ
  current_wait_time_minutes : ℚ
deriving DecidableEq, Repr

/-- The distance computed by the search handler (`stations.py`
lines 169-172): `((lat_diff ** 2 + lon_diff ** 2) ** 0.5) * 111`.  The
float square root `** 0.5` is abstracted as the parameter `sqrtFn`. -/
def distance_calc (sqrtFn : ℚ → ℚ) (search : StationSearch) (station : Station) : ℚ :=
  let lat_diff := |station.location.lat - search.lat|
  let lon_diff := |station.location.lon - search.lon|
  sqrtFn (lat_diff ^ 2 + lon_diff ^ 2) * 111

/-- The filter/build loop of `search_nearby_stations` (`stations.py`
lines 167-196) before sorting. -/
def search_results_unsorted (sqrtFn : ℚ → ℚ) (search : StationSearch)
    (stations : List Station) : List StationSearchResult :=
  stations.filterMap (fun station =>
    let distance := distance_calc sqrtFn search station
    if search.radius_km < distance then none
    else if (match search.station_type with
             | some t => station.station_type != t
             | none => false) then none
    else if station.capacity.available_slots < search.min_available_slots then none
    else
      let availability_score :=
        (station.capacity.available_slots : ℚ) / (station.capacity.total_slots : ℚ)
      let travel_time := distance / 50 * 60
      some { station
             distance_km := pyRound 2 distance
             estimated_travel_time_minutes := pyRound 1 travel_time
             availability_score := pyRound 2 availability_score
             current_wait_time_minutes := if availability_score < 0.3 then 5.0 else 0.0 })

/-- `search_nearby_stations` (`stations.py` lines 158-206), happy path:
the filtered results sorted by `distance_km` (the stable Python sort is
modelled by insertion sort, which is also stable). -/
def search_nearby_stations (sqrtFn : ℚ → ℚ) (search : StationSearch)
    (stations : List Station) : List StationSearchResult :=
  List.insertionSort (fun a b => a.distance_km ≤ b.distance_km)
    (search_results_unsorted sqrtFn search stations)

/-- `get_mock_stations` (`stations.py` lines 358-437), restricted to the
fields of the trimmed `Station` model. -/
def get_mock_stations : List Station :=
  [{ station_id := "STN001"
     name := "Mumbai Central Swap Hub"
     location := ⟨19.0760, 72.8777, "Mumbai Central Railway Station, Mumbai",
                  "Mumbai", "Maharashtra", "India"⟩
     station_type := .urban
     capacity := ⟨20, 12, pyTrunc ((20 : ℚ) * 0.3), 2, 20, 18, 20 - 18⟩ },
   { station_id := "STN002"
     name := "Pune Tech Park Station"
     location := ⟨18.5204, 73.8567, "Hinjewadi IT Park, Pune",
                  "Pune", "Maharashtra", "India"⟩
     station_type := .commercial
     capacity := ⟨15, 8, pyTrunc ((15 : ℚ) * 0.3), 2, 15, 13, 15 - 13⟩ },
   { station_id := "STN003"
     name := "Highway Express Charging"
     location := ⟨18.8000, 73.2000, "Mumbai-Pune Expressway, Lonavala",
                  "Lonavala", "Maharashtra", "India"⟩
     station_type := .highway
     capacity := ⟨12, 9, pyTrunc ((12 : ℚ) * 0.3), 2, 12, 11, 12 - 11⟩ }]

end RoutersStations

/-! ## Entity field shapes (pydantic models) -/

/-- The type annotation of one pydantic model field. -/
inductive PyFieldType where
  | string
  | floatTy
  | intTy
  | datetime
  | boolean
  | enumeration (name : String)
  | optional (t : PyFieldType)
  | record (name : String)
  | listOf (t : PyFieldType)
  | dict
deriving DecidableEq, Repr

/-- Primitive field types: scalars (strings, numbers, datetimes, booleans,
string-valued enums), optionally wrapped in `Optional`.  Nested pydantic
models (`record`), lists and dicts are not primitive. -/
def isPrimitiveType : PyFieldType → Bool
  | .string | .floatTy | .intTy | .datetime | .boolean => true
  | .enumeration _ => true
  | .optional t => isPrimitiveType t
  | .record _ => false
  | .listOf _ => false
  | .dict => false

/-- One declared field of a pydantic model. -/
structure FieldDecl where
  fieldName : String
  fieldType : PyFieldType
deriving DecidableEq, Repr

/-- A model is flat when every field is of primitive type. -/
def isFlat (fields : List FieldDecl) : Bool :=
  fields.all (fun f => isPrimitiveType f.fieldType)

/-- Fields of the legacy `Battery` model (`src/main.py` lines 30-38). -/
def legacy_Battery_fields : List FieldDecl :=
  [⟨"id", .string⟩, ⟨"health", .floatTy⟩, ⟨"soc", .floatTy⟩, ⟨"cycles", .intTy⟩,
   ⟨"temp", .floatTy⟩, ⟨"location", .string⟩, ⟨"status", .string⟩,
   ⟨"timestamp", .datetime⟩]

/-- Fields of the legacy `Station` model (`src/main.py` lines 40-47). -/
def legacy_Station_fields : List FieldDecl :=
  [⟨"id", .string⟩, ⟨"name", .string⟩, ⟨"lat", .floatTy⟩, ⟨"lng", .floatTy⟩,
   ⟨"batteries", .intTy⟩, ⟨"utilization", .floatTy⟩, ⟨"status", .string⟩]

/-- Fields of the legacy `Route` model (`src/main.py` lines 49-57). -/
def legacy_Route_fields : List FieldDecl :=
  [⟨"id", .string⟩, ⟨"from_location", .string⟩, ⟨"to_location", .string⟩,
   ⟨"distance", .floatTy⟩, ⟨"elevation_gain", .floatTy⟩,
   ⟨"predicted_range", .floatTy⟩, ⟨"confidence", .floatTy⟩,
   ⟨"weather_impact", .floatTy⟩]

/-- Fields of the legacy `User` model (`src/main.py` lines 59-63). -/
def legacy_User_fields : List FieldDecl :=
  [⟨"id", .string⟩, ⟨"username", .string⟩, ⟨"role", .string⟩,
   ⟨"language", .string⟩]

/-- Fields of the backend `Battery` model
(`src/backend/models/batteries.py` lines 35-48). -/
def backend_Battery_fields : List FieldDecl :=
  [⟨"battery_id", .string⟩, ⟨"station_id", .string⟩, ⟨"manufacturer", .string⟩,
   ⟨"model", .string⟩, ⟨"chemistry", .string⟩, ⟨"capacity_kwh", .floatTy⟩,
   ⟨"manufacturing_date", .datetime⟩, ⟨"first_use_date", .optional .datetime⟩,
   ⟨"current_location", .optional .string⟩, ⟨"metrics", .record "BatteryMetrics"⟩,
   ⟨"maintenance_history", .listOf .dict⟩, ⟨"created_at", .datetime⟩,
   ⟨"updated_at", .datetime⟩]

/-- Fields of the backend `Station` model
(`src/backend/models/stations.py` lines 46-58). -/
def backend_Station_fields : List FieldDecl :=
  [⟨"station_id", .string⟩, ⟨"name", .string⟩, ⟨"location", .record "Location"⟩,
   ⟨"station_type", .enumeration "StationType"⟩,
   ⟨"status", .enumeration "StationStatus"⟩,
   ⟨"capacity", .record "StationCapacity"⟩,
   ⟨"metrics", .record "OperationalMetrics"⟩,
   ⟨"amenities", .listOf .string⟩, ⟨"operating_hours", .dict⟩,
   ⟨"contact_info", .optional .dict⟩, ⟨"created_at", .datetime⟩,
   ⟨"updated_at", .datetime⟩]

/-! ## REST endpoint table -/

/-- The authentication dependency attached to an endpoint. -/
inductive AuthDep where
  | noAuth
  | verifyTokenDep
  | getCurrentUser
  | requireOperator
  | requireAdmin
deriving DecidableEq, Repr

/-- One REST endpoint: which app registers it (the legacy `src/main.py`
app or the `src/backend` app), its method, its full path, and its auth
dependency. -/
structure Endpoint where
  app : String
  method : String
  path : String
  auth : AuthDep
deriving DecidableEq, Repr

/-- Whether the endpoint runs behind a bearer-token dependency. -/
def requiresAuth (e : Endpoint) : Bool := e.auth != .noAuth

/-- Whether the endpoint is the login or registration operation itself. -/
def isLoginOrRegister (e : Endpoint) : Bool :=
  e.path == "/auth/login" || e.path == "/api/auth/login" || e.path == "/api/auth/register"

/-- Every route registered in the repository: the legacy app
(`src/main.py`) and the backend app (`src/backend/main.py` and the five
routers it includes, with their prefixes). -/
def endpoints : List Endpoint :=
  [⟨"legacy", "GET", "/", .noAuth⟩,
   ⟨"legacy", "POST", "/auth/login", .noAuth⟩,
   ⟨"legacy", "GET", "/api/batteries", .verifyTokenDep⟩,
   ⟨"legacy", "GET", "/api/batteries/\x7bbattery_id\x7d", .verifyTokenDep⟩,
   ⟨"legacy", "GET", "/api/stations", .verifyTokenDep⟩,
   ⟨"legacy", "GET", "/api/route-optimization", .verifyTokenDep⟩,
   ⟨"legacy", "GET", "/api/analytics/circular-economy", .verifyTokenDep⟩,
   ⟨"legacy", "GET", "/api/analytics/ml-performance", .verifyTokenDep⟩,
   ⟨"legacy", "GET", "/api/weather/\x7blocation\x7d", .verifyTokenDep⟩,
   ⟨"backend", "GET", "/", .noAuth⟩,
   ⟨"backend", "GET", "/health", .noAuth⟩,
   ⟨"backend", "GET", "/info", .noAuth⟩,
   ⟨"backend", "POST", "/api/auth/register", .noAuth⟩,
   ⟨"backend", "POST", "/api/auth/login", .noAuth⟩,
   ⟨"backend", "GET", "/api/auth/me", .getCurrentUser⟩,
   ⟨"backend", "POST", "/api/auth/refresh", .getCurrentUser⟩,
   ⟨"backend", "POST", "/api/auth/demo/create-demo-users", .noAuth⟩,
   ⟨"backend", "POST", "/api/auth/logout", .getCurrentUser⟩,
   ⟨"backend", "POST", "/api/auth/password-reset-request", .noAuth⟩,
   ⟨"backend", "POST", "/api/auth/password-reset", .noAuth⟩,
   ⟨"backend", "GET", "/api/batteries/", .getCurrentUser⟩,
   ⟨"backend", "GET", "/api/batteries/\x7bbattery_id\x7d", .getCurrentUser⟩,
   ⟨"backend", "POST", "/api/batteries/", .requireOperator⟩,
   ⟨"backend", "PUT", "/api/batteries/\x7bbattery_id\x7d", .requireOperator⟩,
   ⟨"backend", "POST", "/api/batteries/\x7bbattery_id\x7d/health-prediction", .getCurrentUser⟩,
   ⟨"backend", "POST", "/api/batteries/swap/analyze", .getCurrentUser⟩,
   ⟨"backend", "GET", "/api/batteries/analytics/circular-economy", .getCurrentUser⟩,
   ⟨"backend", "POST", "/api/routes/optimize", .getCurrentUser⟩,
   ⟨"backend", "POST", "/api/routes/range-analysis", .getCurrentUser⟩,
   ⟨"backend", "POST", "/api/routes/terrain-analysis", .getCurrentUser⟩,
   ⟨"backend", "GET", "/api/routes/demo/weather", .noAuth⟩,
   ⟨"backend", "GET", "/api/routes/metrics/optimization", .getCurrentUser⟩,
   ⟨"backend", "GET", "/api/stations/", .getCurrentUser⟩,
   ⟨"backend", "GET", "/api/stations/\x7bstation_id\x7d", .getCurrentUser⟩,
   ⟨"backend", "POST", "/api/stations/", .requireAdmin⟩,
   ⟨"backend", "PUT", "/api/stations/\x7bstation_id\x7d", .requireOperator⟩,
   ⟨"backend", "POST", "/api/stations/search", .getCurrentUser⟩,
   ⟨"backend", "GET", "/api/stations/\x7bstation_id\x7d/analytics", .getCurrentUser⟩,
   ⟨"backend", "POST", "/api/stations/placement/optimize", .requireAdmin⟩,
   ⟨"backend", "GET", "/api/stations/\x7bstation_id\x7d/grid-integration", .getCurrentUser⟩,
   ⟨"backend", "GET", "/api/analytics/dashboard", .getCurrentUser⟩,
   ⟨"backend", "GET", "/api/analytics/battery-health-summary", .getCurrentUser⟩,
   ⟨"backend", "GET", "/api/analytics/range-prediction-analytics", .getCurrentUser⟩,
   ⟨"backend", "GET", "/api/analytics/circular-economy-metrics", .getCurrentUser⟩,
   ⟨"backend", "GET", "/api/analytics/station-performance", .getCurrentUser⟩,
   ⟨"backend", "GET", "/api/analytics/system-status", .requireOperator⟩,
   ⟨"backend", "POST", "/api/analytics/generate-report", .getCurrentUser⟩]

/-- The full list of paths that run without a bearer-token dependency:
login/registration, the status pages, the auth placeholders, demo-user
creation, and the weather demo endpoint. -/
def exempt_paths : List String :=
  ["/", "/health", "/info", "/auth/login", "/api/auth/register",
   "/api/auth/login", "/api/auth/demo/create-demo-users",
   "/api/auth/password-reset-request", "/api/auth/password-reset",
   "/api/routes/demo/weather"]

/-- The weather demo endpoint (`src/backend/routers/routes.py`
lines 234-257), registered with no auth dependency. -/
def demo_weather_endpoint : Endpoint :=
  ⟨"backend", "GET", "/api/routes/demo/weather", .noAuth⟩

/-! ## Handler exception boundaries -/

/-- The observable outcome of a handler whose execution hit an
exception. -/
inductive ExcOutcome where
  | emptyColl
  | mockVal
  | http (code : Nat)
deriving DecidableEq, Repr

/-- An exception inside a handler body: a deliberately raised
`HTTPException` with its status code, or any other (generic)
exception. -/
inductive Exc where
  | httpExc (code : Nat)
  | generic
deriving DecidableEq, Repr

/-- The try/except skeleton of one handler: which `HTTPException` codes
its body deliberately raises, whether such exceptions are re-raised
unchanged at the boundary (an `except HTTPException: raise` clause, or
the raise sits outside any try block), and the outcome of the broad
`except Exception` clause (a handler with no try block is recorded with
`.http 500`, the framework default for an unhandled exception). -/
structure HandlerSpec where
  handlerName : String
  deliberate : List Nat
  reraisesHTTP : Bool
  onGeneric : ExcOutcome
deriving DecidableEq, Repr

/-- Outcome produced at the handler boundary for an exception raised
during execution. -/
def boundary_outcome (h : HandlerSpec) : Exc → ExcOutcome
  | .httpExc c => if h.reraisesHTTP then .http c else h.onGeneric
  | .generic => h.onGeneric

/-- The exception boundary of every handler in the repository, one entry
per route handler of the legacy app and the backend routers, plus the
four public `MLService` methods (which catch broad exceptions and return
fallback dicts). -/
def handlers : List HandlerSpec :=
  [⟨"main.root", [], false, .http 500⟩,
   ⟨"main.login", [401], true, .http 500⟩,
   ⟨"main.get_batteries", [], false, .emptyColl⟩,
   ⟨"main.get_battery", [404], true, .http 500⟩,
   ⟨"main.get_stations", [], false, .emptyColl⟩,
   ⟨"main.get_route_optimization", [], false, .http 500⟩,
   ⟨"main.get_circular_economy_data", [], false, .emptyColl⟩,
   ⟨"main.get_ml_performance", [], false, .emptyColl⟩,
   ⟨"main.get_weather", [], false, .emptyColl⟩,
   ⟨"auth.register_user", [400], true, .http 500⟩,
   ⟨"auth.login", [401], true, .http 500⟩,
   ⟨"auth.get_current_user_info", [], false, .http 500⟩,
   ⟨"auth.refresh_token", [], false, .http 500⟩,
   ⟨"auth.create_demo_users", [403], true, .http 500⟩,
   ⟨"auth.logout", [], false, .http 500⟩,
   ⟨"auth.request_password_reset", [], false, .http 500⟩,
   ⟨"auth.reset_password", [], false, .http 500⟩,
   ⟨"batteries.get_batteries", [], false, .http 500⟩,
   ⟨"batteries.get_battery", [404], true, .http 500⟩,
   ⟨"batteries.create_battery", [400], true, .http 500⟩,
   ⟨"batteries.update_battery", [404], true, .http 500⟩,
   ⟨"batteries.predict_battery_health", [404], true, .http 500⟩,
   ⟨"batteries.analyze_swap_request", [404], true, .http 500⟩,
   ⟨"batteries.get_circular_economy_metrics", [], false, .http 500⟩,
   ⟨"routes.optimize_route", [400], true, .http 500⟩,
   ⟨"routes.analyze_range", [], false, .http 500⟩,
   ⟨"routes.analyze_terrain", [], false, .http 500⟩,
   ⟨"routes.demo_weather_integration", [], false, .mockVal⟩,
   ⟨"routes.get_optimization_metrics", [], false, .http 500⟩,
   ⟨"stations.get_stations", [], false, .http 500⟩,
   ⟨"stations.get_station", [404], true, .http 500⟩,
   ⟨"stations.create_station", [], false, .http 500⟩,
   ⟨"stations.update_station", [404], true, .http 500⟩,
   ⟨"stations.search_nearby_stations", [], false, .http 500⟩,
   ⟨"stations.get_station_analytics", [404], true, .http 500⟩,
   ⟨"stations.optimize_station_placement", [], false, .http 500⟩,
   ⟨"stations.get_grid_integration_status", [404], true, .http 500⟩,
   ⟨"analytics.get_dashboard_analytics", [], false, .http 500⟩,
   ⟨"analytics.get_battery_health_summary", [], false, .http 500⟩,
   ⟨"analytics.get_range_prediction_analytics", [], false, .http 500⟩,
   ⟨"analytics.get_circular_economy_metrics", [], false, .http 500⟩,
   ⟨"analytics.get_station_performance_analytics", [], false, .http 500⟩,
   ⟨"analytics.get_system_status", [], false, .http 500⟩,
   ⟨"analytics.generate_custom_report", [], false, .http 500⟩,
   ⟨"ml_service.predict_battery_health", [], false, .mockVal⟩,
   ⟨"ml_service.predict_range", [], false, .mockVal⟩,
   ⟨"ml_service.analyze_circular_economy", [], false, .mockVal⟩,
   ⟨"ml_service.optimize_station_placement", [], false, .mockVal⟩]

/-- The outcome set the specification allows: an empty collection, a
mock value, or a generic HTTP 500/401. -/
def spec_allowed : ExcOutcome → Bool
  | .emptyColl => true
  | .mockVal => true
  | .http c => c == 500 || c == 401

/-! ## Claims -/

/-- C1: the legacy `GET /api/batteries` handler has read-through cache
semantics: when `batteries_cache` holds an entry, the decoded cached list
is returned without querying the document store and without writing the
cache; when it holds none, all battery documents are fetched, the result
is written to the cache, and that result is returned. -/
theorem C1_batteries_read_through_cache (cache : Main.Cache) (db : Main.DB) :
    (∀ bs, cache.batteries_cache = some bs →
        Main.get_batteries cache db =
          { response := bs, writes := [], dbQueried := false }) ∧
    (cache.batteries_cache = none →
        Main.get_batteries cache db =
          { response := db.batteries,
            writes := [⟨"batteries_cache", 30, .batteriesVal db.batteries⟩],
            dbQueried := true }) := by
  constructor
  · intro bs h
    simp [Main.get_batteries, h]
  · intro h
    simp [Main.get_batteries, h]

/-- Witness for C1: a concrete cache hit and a concrete cache miss. -/
theorem C1_batteries_read_through_cache_witness :
    Main.get_batteries ⟨some [], fun _ => none, none⟩ ⟨Main.sample_batteries 0, []⟩ =
      { response := [], writes := [], dbQueried := false } ∧
    Main.get_batteries Main.Cache.empty ⟨Main.sample_batteries 0, []⟩ =
      { response := Main.sample_batteries 0,
        writes := [⟨"batteries_cache", 30, .batteriesVal (Main.sample_batteries 0)⟩],
        dbQueried := true } :=
  ⟨(C1_batteries_read_through_cache ⟨some [], fun _ => none, none⟩ _).1 [] rfl,
   (C1_batteries_read_through_cache Main.Cache.empty _).2 rfl⟩

/-- C2: every cache write the legacy handlers issue uses a fixed expiry:
30 seconds on the battery-list key, 30 seconds on every per-battery key,
and 60 seconds on the station-list key; no other key or TTL occurs. -/
theorem C2_cache_write_ttls (cache : Main.Cache) (db : Main.DB) (battery_id : String) :
    (∀ w ∈ (Main.get_batteries cache db).writes,
        w.key = "batteries_cache" ∧ w.ttl = 30) ∧
    (∀ w ∈ (Main.get_battery battery_id cache db).writes,
        w.key = "battery_" ++ battery_id ∧ w.ttl = 30) ∧
    (∀ w ∈ (Main.get_stations cache db).writes,
        w.key = "stations_cache" ∧ w.ttl = 60) := by
  refine ⟨?_, ?_, ?_⟩
  · intro w hw
    cases h : cache.batteries_cache with
    | some bs => simp [Main.get_batteries, h] at hw
    | none =>
        simp [Main.get_batteries, h] at hw
        simp [hw]
  · intro w hw
    cases h : cache.battery_cache battery_id with
    | some b => simp [Main.get_battery, h] at hw
    | none =>
        cases hf : db.batteries.find? (fun d => d.id == battery_id) with
        | none => simp [Main.get_battery, h, hf] at hw
        | some b =>
            simp [Main.get_battery, h, hf] at hw
            simp [hw]
  · intro w hw
    cases h : cache.stations_cache with
    | some ss => simp [Main.get_stations, h] at hw
    | none =>
        simp [Main.get_stations, h] at hw
        simp [hw]

/-- Witness for C2: the writes issued on concrete cache misses. -/
theorem C2_cache_write_ttls_witness :
    ((⟨"batteries_cache", 30, .batteriesVal (Main.sample_batteries 0)⟩ : Main.CacheWrite).key =
        "batteries_cache" ∧
      (⟨"batteries_cache", 30, .batteriesVal (Main.sample_batteries 0)⟩ : Main.CacheWrite).ttl = 30) ∧
    ((⟨"battery_BAT001", 30,
        .batteryVal ⟨"BAT001", 95, 87, 245, 32, "Mumbai", "active", 0⟩⟩ : Main.CacheWrite).key =
        "battery_" ++ "BAT001" ∧
      (⟨"battery_BAT001", 30,
        .batteryVal ⟨"BAT001", 95, 87, 245, 32, "Mumbai", "active", 0⟩⟩ : Main.CacheWrite).ttl = 30) ∧
    ((⟨"stations_cache", 60, .stationsVal Main.sample_stations⟩ : Main.CacheWrite).key =
        "stations_cache" ∧
      (⟨"stations_cache", 60, .stationsVal Main.sample_stations⟩ : Main.CacheWrite).ttl = 60) :=
  ⟨(C2_cache_write_ttls Main.Cache.empty (Main.init_sample_data 0 ⟨[], []⟩) "BAT001").1 _
      (List.Mem.head _),
   (C2_cache_write_ttls Main.Cache.empty (Main.init_sample_data 0 ⟨[], []⟩) "BAT001").2.1 _
      (by decide),
   (C2_cache_write_ttls Main.Cache.empty (Main.init_sample_data 0 ⟨[], []⟩) "BAT001").2.2 _
      (List.Mem.head _)⟩

/-- C3 counterexample: the legacy route-optimization handler is not a
deterministic function of its request data — two runs on the same
`from_loc`/`to_loc` under different RNG streams return different routes
(the first draw makes `distance` 50 in one run and 51 in the other). -/
theorem C3_route_rng_counterexample :
    Main.get_route_optimization "Mumbai" "Pune" [0, 0, 0, 0, 0] ≠
      Main.get_route_optimization "Mumbai" "Pune" [1, 0, 0, 0, 0] := by
  intro h
  exact absurd (congrArg Main.RouteData.distance h) (by decide)

/-- C3 (amended): the circular-economy and station-placement computations
are deterministic arithmetic functions of their request data: their
outputs are independent of the RNG stream of the run (the
route-optimization endpoint, by contrast, draws five values from the
RNG, see the counterexample). -/
theorem C3_circular_placement_deterministic
    (battery_data : List MLService.BatteryRec) (region_data : MLService.RegionData)
    (rng1 rng2 : List Nat) :
    MLService.analyze_circular_economy battery_data rng1 =
      MLService.analyze_circular_economy battery_data rng2 ∧
    MLService.optimize_station_placement region_data rng1 =
      MLService.optimize_station_placement region_data rng2 :=
  ⟨rfl, rfl⟩

/-- C4: after startup seeding, an authenticated `GET /api/batteries`
request that misses the cache returns exactly the seeded battery list
(the data layer passes the store content straight through). -/
theorem C4_batteries_returns_seeded_list (now : Int) (db0 : Main.DB)
    (cache : Main.Cache) (hmiss : cache.batteries_cache = none) :
    (Main.get_batteries cache (Main.init_sample_data now db0)).response =
      Main.sample_batteries now := by
  simp [Main.get_batteries, hmiss, Main.init_sample_data]

/-- Witness for C4 on the empty cache and an arbitrary prior store. -/
theorem C4_batteries_returns_seeded_list_witness :
    (Main.get_batteries Main.Cache.empty (Main.init_sample_data 0 ⟨[], []⟩)).response =
      Main.sample_batteries 0 :=
  C4_batteries_returns_seeded_list 0 ⟨[], []⟩ Main.Cache.empty rfl

/-- C5: login yields an access token exactly for valid credentials.  In
the legacy entry point that means the hard-coded pair `demo`/`demo123`;
in the backend, a stored user whose password hash verifies.  Every other
pair yields HTTP 401 and no token. -/
theorem C5_login_iff_valid_credentials :
    (∀ now req,
      ((Main.login now req).isToken = true ↔
        (req.username = "demo" ∧ req.password = "demo123")) ∧
      ((Main.login now req).isToken = false → Main.login now req = .httpError 401)) ∧
    (∀ (verify_password : String → String → Bool)
        (users : List AuthService.UserInDB) (username password : String),
      ((RoutersAuth.login verify_password users username password).isToken = true ↔
        ∃ user, AuthService.get_user_by_username users username = some user ∧
          verify_password password user.hashed_password = true) ∧
      ((RoutersAuth.login verify_password users username password).isToken = false →
        RoutersAuth.login verify_password users username password = .httpError 401)) := by
  constructor
  · intro now req
    by_cases h : req.username = "demo" ∧ req.password = "demo123"
    · constructor
      · simp [Main.login, h, Main.LoginResult.isToken]
      · intro hf
        simp [Main.login, h, Main.LoginResult.isToken] at hf
    · constructor
      · simp [Main.login, h, Main.LoginResult.isToken]
      · intro _
        simp [Main.login, h]
  · intro verify_password users username password
    cases hu : AuthService.get_user_by_username users username with
    | none =>
        constructor
        · constructor
          · intro ht
            simp [RoutersAuth.login, AuthService.authenticate_user, hu,
                  RoutersAuth.LoginOutcome.isToken] at ht
          · rintro ⟨user, huser, -⟩
            exact absurd huser (by simp)
        · intro _
          simp [RoutersAuth.login, AuthService.authenticate_user, hu]
    | some user =>
        by_cases hv : verify_password password user.hashed_password = true
        · constructor
          · constructor
            · intro _
              exact ⟨user, rfl, hv⟩
            · intro _
              simp [RoutersAuth.login, AuthService.authenticate_user, hu, hv,
                    RoutersAuth.LoginOutcome.isToken]
          · intro hf
            simp [RoutersAuth.login, AuthService.authenticate_user, hu, hv,
                  RoutersAuth.LoginOutcome.isToken] at hf
        · constructor
          · constructor
            · intro ht
              simp [RoutersAuth.login, AuthService.authenticate_user, hu, hv,
                    RoutersAuth.LoginOutcome.isToken] at ht
            · rintro ⟨user2, huser2, hv2⟩
              cases huser2
              exact absurd hv2 hv
          · intro _
            simp [RoutersAuth.login, AuthService.authenticate_user, hu, hv]

/-- Witness for C5: the demo credentials succeed and wrong passwords get
401, in both the legacy entry point and the backend. -/
theorem C5_login_iff_valid_credentials_witness :
    (Main.login 0 ⟨"demo", "demo123"⟩).isToken = true ∧
    Main.login 0 ⟨"demo", "wrong"⟩ = .httpError 401 ∧
    (RoutersAuth.login (fun p h => (p ++ "hash") == h)
      [⟨"user_demo", "demo", "demo@smartswapml.com", "demo123hash", "user", true⟩]
      "demo" "demo123").isToken = true ∧
    RoutersAuth.login (fun p h => (p ++ "hash") == h)
      [⟨"user_demo", "demo", "demo@smartswapml.com", "demo123hash", "user", true⟩]
      "demo" "bad" = .httpError 401 :=
  ⟨(C5_login_iff_valid_credentials.1 0 ⟨"demo", "demo123"⟩).1.mpr ⟨rfl, rfl⟩,
   (C5_login_iff_valid_credentials.1 0 ⟨"demo", "wrong"⟩).2 (by decide),
   (C5_login_iff_valid_credentials.2 (fun p h => (p ++ "hash") == h)
      [⟨"user_demo", "demo", "demo@smartswapml.com", "demo123hash", "user", true⟩]
      "demo" "demo123").1.mpr
     ⟨⟨"user_demo", "demo", "demo@smartswapml.com", "demo123hash", "user", true⟩,
      by decide, by decide⟩,
   (C5_login_iff_valid_credentials.2 (fun p h => (p ++ "hash") == h)
      [⟨"user_demo", "demo", "demo@smartswapml.com", "demo123hash", "user", true⟩]
      "demo" "bad").2 (by decide)⟩

/-- C6 counterexample: the weather demo endpoint is a REST endpoint of the
API, is neither login nor registration, and carries no bearer-token
dependency — so not every non-login endpoint is authenticated. -/
theorem C6_unauthenticated_endpoint_counterexample :
    demo_weather_endpoint ∈ endpoints ∧
    isLoginOrRegister demo_weather_endpoint = false ∧
    requiresAuth demo_weather_endpoint = false ∧
    ¬ (∀ e ∈ endpoints, isLoginOrRegister e = false → requiresAuth e = true) := by
  refine ⟨by decide, rfl, rfl, ?_⟩
  intro hall
  exact absurd (hall demo_weather_endpoint (by decide) rfl) (by decide)

/-- C6 (amended): every endpoint outside the explicit unauthenticated list
(login/registration, the status pages, the auth placeholder endpoints,
demo-user creation, and the weather demo endpoint) runs behind a
bearer-token dependency; a presented token that is malformed/expired
(decode failure) or lacks a subject is rejected with HTTP 401 by both
verifiers, the backend verifier also rejects tokens whose `type` claim is
not `access`, and a failed dependency means the handler body never runs
and no data is accessed. -/
theorem C6_bearer_auth_amended :
    (∀ e ∈ endpoints, e.path ∉ exempt_paths → requiresAuth e = true) ∧
    (Main.verify_token .decodeError = .httpError 401 ∧
      ∀ typ, Main.verify_token (.payload none typ) = .httpError 401) ∧
    (AuthService.verify_token .decodeError = .httpError 401 ∧
      (∀ user_id role typ,
        AuthService.verify_token (.payload none user_id role typ) = .httpError 401) ∧
      (∀ sub user_id role typ, typ ≠ some "access" →
        AuthService.verify_token (.payload sub user_id role typ) = .httpError 401)) ∧
    (∀ (body : Unit → (List Main.Battery) × Bool) (c : Nat),
      Main.with_auth (.httpError c) body = (.httpError c, false)) := by
  refine ⟨by decide, ⟨rfl, fun typ => rfl⟩, ⟨rfl, fun user_id role typ => rfl, ?_⟩, ?_⟩
  · intro sub user_id role typ htyp
    cases sub with
    | none => rfl
    | some username => simp [AuthService.verify_token, htyp]
  · intro body c
    rfl

/-- Witness for C6 (amended) at the legacy battery-list endpoint and a
refresh-type token. -/
theorem C6_bearer_auth_amended_witness :
    requiresAuth ⟨"legacy", "GET", "/api/batteries", .verifyTokenDep⟩ = true ∧
    AuthService.verify_token
      (.payload (some "demo") (some "user_demo") (some "user") (some "refresh")) =
      .httpError 401 :=
  ⟨C6_bearer_auth_amended.1 ⟨"legacy", "GET", "/api/batteries", .verifyTokenDep⟩
      (by decide) (by decide),
   C6_bearer_auth_amended.2.2.1.2.2 (some "demo") (some "user_demo") (some "user")
      (some "refresh") (by decide)⟩

/-- C7 counterexample: the legacy single-battery handler re-raises its
deliberate 404 at the boundary, and a request for an id absent from the
seeded store indeed yields HTTP 404 — an error outcome outside the
claimed set (empty collection, mock value, generic 500/401). -/
theorem C7_http404_counterexample :
    (⟨"main.get_battery", [404], true, .http 500⟩ : HandlerSpec) ∈ handlers ∧
    boundary_outcome ⟨"main.get_battery", [404], true, .http 500⟩ (.httpExc 404) = .http 404 ∧
    spec_allowed (.http 404) = false ∧
    (Main.get_battery "BAT999" Main.Cache.empty (Main.init_sample_data 0 ⟨[], []⟩)).response =
      .httpError 404 ∧
    ¬ (∀ h ∈ handlers, ∀ c ∈ h.deliberate,
        spec_allowed (boundary_outcome h (.httpExc c)) = true) := by
  refine ⟨by decide, rfl, rfl, by decide, ?_⟩
  intro hall
  exact absurd
    (hall ⟨"main.get_battery", [404], true, .http 500⟩ (by decide) 404 (by decide))
    (by decide)

/-- C7 (amended): at every handler boundary in the repository, a generic
internal exception produces an empty collection, a mock/fallback value,
or a generic HTTP 500; a deliberately raised `HTTPException` (400, 401,
403 or 404) passes through the boundary unchanged.  No other error
outcome is produced. -/
theorem C7_handler_boundary_amended :
    ∀ h ∈ handlers,
      (boundary_outcome h .generic = .emptyColl ∨
        boundary_outcome h .generic = .mockVal ∨
        boundary_outcome h .generic = .http 500) ∧
      ∀ c ∈ h.deliberate,
        boundary_outcome h (.httpExc c) = .http c ∧
          (c = 400 ∨ c = 401 ∨ c = 403 ∨ c = 404) := by decide

/-- Witness for C7 (amended) at the legacy battery-list handler and the
legacy single-battery handler. -/
theorem C7_handler_boundary_amended_witness :
    (boundary_outcome ⟨"main.get_batteries", [], false, .emptyColl⟩ .generic = .emptyColl ∨
      boundary_outcome ⟨"main.get_batteries", [], false, .emptyColl⟩ .generic = .mockVal ∨
      boundary_outcome ⟨"main.get_batteries", [], false, .emptyColl⟩ .generic = .http 500) ∧
    boundary_outcome ⟨"main.get_battery", [404], true, .http 500⟩ (.httpExc 404) = .http 404 :=
  ⟨(C7_handler_boundary_amended ⟨"main.get_batteries", [], false, .emptyColl⟩ (by decide)).1,
   ((C7_handler_boundary_amended ⟨"main.get_battery", [404], true, .http 500⟩ (by decide)).2
      404 (by decide)).1⟩

/-- C8 counterexample: the backend `Battery` model is not a flat record —
its `metrics` field is the nested pydantic model `BatteryMetrics` — so
the four entity types are not all flat records of primitive fields. -/
theorem C8_backend_battery_not_flat_counterexample :
    isFlat backend_Battery_fields = false ∧
    (⟨"metrics", .record "BatteryMetrics"⟩ : FieldDecl) ∈ backend_Battery_fields ∧
    ¬ (isFlat legacy_Battery_fields = true ∧ isFlat legacy_Station_fields = true ∧
        isFlat legacy_Route_fields = true ∧ isFlat legacy_User_fields = true ∧
        isFlat backend_Battery_fields = true) := by decide

/-- C8 (amended): the legacy `Battery`, `Station`, `Route` and `User`
models are flat records whose fields are all primitive; the backend
`Battery` and `Station` models are not flat — they carry nested
record-valued fields (`metrics`; `location`, `capacity`, `metrics`). -/
theorem C8_entity_flatness_amended :
    isFlat legacy_Battery_fields = true ∧
    isFlat legacy_Station_fields = true ∧
    isFlat legacy_Route_fields = true ∧
    isFlat legacy_User_fields = true ∧
    isFlat backend_Battery_fields = false ∧
    isFlat backend_Station_fields = false := by decide

/-- C9: in the backend battery-list handler, the `station_id` and
`status` filter parameters have no effect: with `skip`, `limit` and the
request time fixed, any two choices of the filters return equal battery
lists (the handler builds a query filter that the mock generator
ignores). -/
theorem C9_battery_filters_no_effect (skip limit : Nat) (now : Int)
    (sid1 sid2 : Option String)
    (st1 st2 : Option RoutersBatteries.BatteryStatus) :
    RoutersBatteries.get_batteries skip limit sid1 st1 now =
      RoutersBatteries.get_batteries skip limit sid2 st2 now := rfl

/-- C10: every result returned by the station search satisfies the
request constraints — the computed distance is at most `radius_km`, the
station type matches when one is requested, the available slots are at
least `min_available_slots`, and the reported `distance_km` is the
rounded computed distance — and the returned list is sorted in
non-decreasing order of `distance_km`. -/
theorem C10_station_search_constraints_and_sorted (sqrtFn : ℚ → ℚ)
    (search : RoutersStations.StationSearch)
    (stations : List RoutersStations.Station) :
    (∀ r ∈ RoutersStations.search_nearby_stations sqrtFn search stations,
        RoutersStations.distance_calc sqrtFn search r.station ≤ search.radius_km ∧
        (∀ t, search.station_type = some t → r.station.station_type = t) ∧
        search.min_available_slots ≤ r.station.capacity.available_slots ∧
        r.distance_km = pyRound 2 (RoutersStations.distance_calc sqrtFn search r.station)) ∧
    (RoutersStations.search_nearby_stations sqrtFn search stations).Sorted
      (fun a b => a.distance_km ≤ b.distance_km) := by
  constructor
  · intro r hr
    rw [RoutersStations.search_nearby_stations, List.mem_insertionSort] at hr
    rw [RoutersStations.search_results_unsorted, List.mem_filterMap] at hr
    obtain ⟨station, hs, hmk⟩ := hr
    simp only at hmk
    by_cases h1 : search.radius_km < RoutersStations.distance_calc sqrtFn search station
    · simp [h1] at hmk
    · by_cases h2 : (match search.station_type with
                     | some t => station.station_type != t
                     | none => false) = true
      · simp only [h1, if_false, if_neg, h2, if_true] at hmk
        · exact absurd hmk (by simp)
      · by_cases h3 : station.capacity.available_slots < search.min_available_slots
        · simp [h1, h2, h3] at hmk
        · simp only [if_neg h1, if_neg h2, if_neg h3, Option.some_inj] at hmk
          subst hmk
          refine ⟨le_of_not_lt h1, ?_, le_of_not_lt h3, rfl⟩
          intro t ht
          rw [ht] at h2
          simpa using h2
  · have htr : IsTrans RoutersStations.StationSearchResult
        (fun a b => a.distance_km ≤ b.distance_km) :=
      ⟨fun a b c hab hbc => le_trans hab hbc⟩
    have hto : IsTotal RoutersStations.StationSearchResult
        (fun a b => a.distance_km ≤ b.distance_km) :=
      ⟨fun a b => le_total a.distance_km b.distance_km⟩
    exact List.sorted_insertionSort _ _

/-- Concrete search request used by the C10 witness. -/
def C10_witness_search : RoutersStations.StationSearch := ⟨0, 0, 10, none, 0⟩

/-- Concrete station used by the C10 witness. -/
def C10_witness_station : RoutersStations.Station :=
  { station_id := "STN000"
    name := "Test Station"
    location := ⟨0, 0, "Test Address", "Test City", "Test State", "India"⟩
    station_type := .urban
    capacity := ⟨20, 12, 6, 2, 20, 18, 2⟩ }

/-- The search result the handler produces for the witness station. -/
def C10_witness_result : RoutersStations.StationSearchResult :=
  { station := C10_witness_station
    distance_km := 0
    estimated_travel_time_minutes := 0
    availability_score := 3/5
    current_wait_time_minutes := 0 }

/-- Witness for C10 at a concrete search over one station. -/
theorem C10_station_search_witness :
    RoutersStations.distance_calc (fun q => q) C10_witness_search
        C10_witness_result.station ≤ C10_witness_search.radius_km ∧
    C10_witness_search.min_available_slots ≤
      C10_witness_result.station.capacity.available_slots := by
  have hmem : C10_witness_result ∈
      RoutersStations.search_nearby_stations (fun q => q) C10_witness_search
        [C10_witness_station] := by
    with_unfolding_all decide
  have h := (C10_station_search_constraints_and_sorted (fun q => q) C10_witness_search
      [C10_witness_station]).1 C10_witness_result hmem
  exact ⟨h.1, h.2.2.1⟩
